import Mathlib

/-!
Verification of the magick-tui dual-path image-processing engine.

This file gives a shallow embedding of the core of the repository
(src/src/utils/imageProcessor.ts, src/src/utils/magickFFI.ts,
src/src/utils/magickShared.ts, src/src/utils/estimateWorker.ts and the
file-scanner in src/unnamed/part_002) and proves or refutes the frozen
claims about it.  Effects (file system, the native library, the worker
thread) are modelled by explicit oracle parameters: each embedded function
receives the outcomes of its external calls as arguments and is otherwise a
direct transcription of the TypeScript control flow.  JavaScript numbers
are modelled by exact rationals extended with the three IEEE special values
where division by zero matters.
-/

namespace MagickTui

/-- Output format type (src/src/utils/types: OutputFormat = webp | avif). -/
inductive OutputFormat
  | webp
  | avif
deriving DecidableEq, Repr

/-- format.toUpperCase() as used in the error accumulation of processImage. -/
def OutputFormat.toUpperCase : OutputFormat → String
  | .webp => "WEBP"
  | .avif => "AVIF"

/-- The lowercase name of a format, as interpolated into FFI error messages. -/
def OutputFormat.lowerName : OutputFormat → String
  | .webp => "webp"
  | .avif => "avif"

/-- ImageDimensions (src/src/utils/types). -/
structure ImageDimensions where
  width : Nat
  height : Nat
deriving DecidableEq, Repr

/-- shouldSwapDimensions (magickFFI.ts:287-289):
orientation >= 5 && orientation <= 8. -/
def shouldSwapDimensions (orientation : Nat) : Bool :=
  5 ≤ orientation && orientation ≤ 8

/-- The pure core of MagickFFI.getImageDimensions (magickFFI.ts:393-429),
given the raw stored width and height and the EXIF orientation value read
from the wand: swap the dimensions when shouldSwapDimensions holds. -/
def getImageDimensionsFFI (rawWidth rawHeight orientation : Nat) :
    ImageDimensions :=
  if shouldSwapDimensions orientation then
    { width := rawHeight, height := rawWidth }
  else
    { width := rawWidth, height := rawHeight }

/-- The pure core of getImageDimensionsShell (src/unnamed/part_002:27-65),
given the parsed raw width and height and the parsed EXIF orientation
field, which is absent when the image carries no EXIF orientation
(parseInt of parts[2] with default string value 1). -/
def getImageDimensionsShell (rawWidth rawHeight : Nat)
    (orientationField : Option Nat) : ImageDimensions :=
  let orientation := orientationField.getD 1
  if shouldSwapDimensions orientation then
    { width := rawHeight, height := rawWidth }
  else
    { width := rawWidth, height := rawHeight }

/-- ValidationResult (imageProcessor.ts:111-114). -/
structure ValidationResult where
  valid : Bool
  error : Option String
deriving DecidableEq, Repr

/-- The width upscale error message built at imageProcessor.ts:139. -/
def upscaleWidthError (width w : Nat) : String :=
  "Cannot upscale width: " ++ toString width ++ "px to " ++ toString w ++
    "px. Only downscaling is allowed."

/-- The height upscale error message built at imageProcessor.ts:146. -/
def upscaleHeightError (height h : Nat) : String :=
  "Cannot upscale height: " ++ toString height ++ "px to " ++ toString h ++
    "px. Only downscaling is allowed."

/-- The height check of validateResize (imageProcessor.ts:143-148). -/
def validateHeightCheck (d : ImageDimensions) (resizeHeight : Option Nat) :
    ValidationResult :=
  match resizeHeight with
  | some hgt =>
      if d.height < hgt then
        { valid := false, error := some (upscaleHeightError d.height hgt) }
      else
        { valid := true, error := none }
  | none => { valid := true, error := none }

/-- validateResize (imageProcessor.ts:119-151).  The dimensions argument is
the result of getImageDimensions on the input path (none when the
dimensions could not be read). -/
def validateResize (dims : Option ImageDimensions)
    (resizeWidth resizeHeight : Option Nat) : ValidationResult :=
  match resizeWidth, resizeHeight with
  | none, none => { valid := true, error := none }
  | rw, rh =>
    match dims with
    | none =>
        { valid := false, error := some "Could not read image dimensions" }
    | some d =>
      match rw with
      | some w =>
          if d.width < w then
            { valid := false, error := some (upscaleWidthError d.width w) }
          else
            validateHeightCheck d rh
      | none => validateHeightCheck d rh

/-- Result of a single-format conversion attempt.  In the source every
success carries an output path and every failure carries an error string
(imageProcessor.ts:190-246, magickFFI.ts:434-564). -/
inductive ConvResult
  | ok (outputPath : String)
  | err (message : String)
deriving DecidableEq, Repr

/-- Outcome of the FFI attempt inside convertToFormat: either
convertToFormatFFI returned a result, or it threw an exception. -/
inductive FFIOutcome
  | result (r : ConvResult)
  | exn (message : String)
deriving DecidableEq, Repr

/-- Environment of one convertToFormat call: the feature flag
MAGICK_USE_FFI, the availability probe isFFIAvailable, the outcome of the
FFI attempt and the result of the shell fallback. -/
structure ConvEnv where
  useFFI : Bool
  ffiAvailable : Bool
  ffiOutcome : FFIOutcome
  shellResult : ConvResult
deriving DecidableEq, Repr

/-- convertToFormat (imageProcessor.ts:252-287): try the FFI path when the
flag is on and the library is available; return its result when it
succeeded; on an FFI failure or exception only log a warning and return
the shell fallback result unchanged. -/
def convertToFormat (env : ConvEnv) : ConvResult :=
  if env.useFFI then
    if env.ffiAvailable then
      match env.ffiOutcome with
      | .result (.ok p) => .ok p
      | .result (.err _) => env.shellResult
      | .exn _ => env.shellResult
    else env.shellResult
  else env.shellResult

/-- ProcessResult (src/src/utils/types).  The source omits the outputPaths
key on failure; that is modelled as the empty list. -/
structure ProcessResult where
  success : Bool
  outputPaths : List String
  error : Option String
deriving DecidableEq, Repr

/-- The per-format loop of processImage (imageProcessor.ts:307-323), with
the per-format outcome of convertToFormat supplied by the conv oracle.
Returns the accumulated outputPaths and errors arrays in iteration
order. -/
def convertLoop (conv : OutputFormat → ConvResult) :
    List OutputFormat → List String × List String
  | [] => ([], [])
  | f :: rest =>
    let r := convertLoop conv rest
    match conv f with
    | .ok p => (p :: r.1, r.2)
    | .err e => (r.1, (f.toUpperCase ++ ": " ++ e) :: r.2)

/-- processImage (imageProcessor.ts:292-342).  The dims argument is the
geometry used by validateResize; conv gives the outcome of convertToFormat
per format.  The second component of the result is the list of formats for
which a conversion was actually attempted. -/
def processImage (dims : Option ImageDimensions)
    (conv : OutputFormat → ConvResult) (outputFormats : List OutputFormat)
    (resizeWidth resizeHeight : Option Nat) :
    ProcessResult × List OutputFormat :=
  let validation := validateResize dims resizeWidth resizeHeight
  if validation.valid = false then
    ({ success := false, outputPaths := [], error := validation.error }, [])
  else
    let r := convertLoop conv outputFormats
    if r.1 = [] then
      let joined := String.intercalate "\n" r.2
      ({ success := false, outputPaths := [],
         error := some (if joined = "" then "No images were converted"
                        else joined) },
       outputFormats)
    else if r.2 = [] then
      ({ success := true, outputPaths := r.1, error := none }, outputFormats)
    else
      ({ success := true, outputPaths := r.1,
         error := some ("Some conversions failed:\n" ++
                        String.intercalate "\n" r.2) },
       outputFormats)

/-- JavaScript truthiness of a number-or-null value: null and 0 are falsy. -/
def truthy : Option Nat → Bool
  | none => false
  | some n => n ≠ 0

/-- Math.round (a / b) for natural a and positive b: round half toward
positive infinity, as an exact natural computation. -/
def roundHalfUp (a b : Nat) : Nat :=
  (2 * a + b) / (2 * b)

/-- The resize step of MagickFFI.convertImage (magickFFI.ts:487-529) and
MagickFFI.estimateFileSize (magickFFI.ts:609-630), which contain the same
logic: when a resize axis is truthy, fill the missing axis preserving
aspect ratio via Math.round, then call MagickResizeImage exactly when both
target axes are at most the current dimensions; otherwise skip silently.
Returns some (targetWidth, targetHeight) when MagickResizeImage is
invoked, none when the resize step is skipped. -/
def resizeDecision (currentWidth currentHeight : Nat)
    (resizeWidth resizeHeight : Option Nat) : Option (Nat × Nat) :=
  if truthy resizeWidth || truthy resizeHeight then
    let tw0 := resizeWidth.getD 0
    let th0 := resizeHeight.getD 0
    let tw :=
      if tw0 ≠ 0 ∧ th0 = 0 then tw0
      else if th0 ≠ 0 ∧ tw0 = 0 then
        roundHalfUp (currentWidth * th0) currentHeight
      else tw0
    let th :=
      if tw0 ≠ 0 ∧ th0 = 0 then
        roundHalfUp (currentHeight * tw0) currentWidth
      else if th0 ≠ 0 ∧ tw0 = 0 then th0
      else th0
    if tw ≤ currentWidth ∧ th ≤ currentHeight then some (tw, th) else none
  else none

/-- A JavaScript number restricted to the values reached by the
size-estimation arithmetic: an exact rational, or one of the IEEE special
values produced by division by zero.  Finite arithmetic is modelled
exactly. -/
inductive JSNum
  | fin (q : ℚ)
  | posInf
  | negInf
  | nan
deriving DecidableEq, Repr

/-- Finiteness of a JSNum. -/
def JSNum.isFinite : JSNum → Bool
  | .fin _ => true
  | _ => false

/-- JavaScript division of two integer-valued numbers: 0/0 is NaN and
x/0 for nonzero x is an infinity with the sign of x. -/
def jsDivInt (a b : ℤ) : JSNum :=
  if b = 0 then
    if a = 0 then .nan
    else if 0 < a then .posInf
    else .negInf
  else .fin ((a : ℚ) / (b : ℚ))

/-- JavaScript multiplication by the literal 100; 100 is finite and
positive so the special values are preserved. -/
def jsMul100 : JSNum → JSNum
  | .fin q => .fin (q * 100)
  | .posInf => .posInf
  | .negInf => .negInf
  | .nan => .nan

/-- Math.round: round half toward positive infinity on finite values, the
identity on NaN and the infinities. -/
def jsRound : JSNum → JSNum
  | .fin q => .fin ((⌊q + 1 / 2⌋ : ℤ) : ℚ)
  | x => x

/-- calculateDecreasePercent (magickShared.ts:84-86):
Math.round(((originalSize - estimatedSize) / originalSize) * 100), with
the same expression inlined at imageProcessor.ts:465. -/
def calculateDecreasePercent (originalSize estimatedSize : ℤ) : JSNum :=
  jsRound (jsMul100 (jsDivInt (originalSize - estimatedSize) originalSize))

/-- FileSizeEstimate (imageProcessor.ts:11-16). -/
structure FileSizeEstimate where
  format : OutputFormat
  estimatedSize : ℤ
  originalSize : ℤ
  decreasePercent : JSNum
deriving DecidableEq, Repr

/-- EstimateFileSizeResult (imageProcessor.ts:18-22); the absent estimates
key on failure is modelled as the empty list. -/
structure EstimateFileSizeResult where
  success : Bool
  estimates : List FileSizeEstimate
  error : Option String
deriving DecidableEq, Repr

/-- The accumulation loop of estimateFileSizeForFormats
(imageProcessor.ts:428-473).  The estimate oracle gives, per format, the
estimated size obtained from the FFI path or the shell fallback, or none
when both failed; an obtained size is pushed together with its
decreasePercent. -/
def estimateEntries (originalSize : ℤ)
    (estimate : OutputFormat → Option ℤ) (formats : List OutputFormat) :
    List FileSizeEstimate :=
  formats.filterMap fun f =>
    (estimate f).map fun sz =>
      { format := f, estimatedSize := sz, originalSize := originalSize,
        decreasePercent := calculateDecreasePercent originalSize sz }

/-- estimateFileSizeForFormats (imageProcessor.ts:417-480): accumulate
the per-format estimates and fail only when no format produced one. -/
def estimateFileSizeForFormats (originalSize : ℤ)
    (estimate : OutputFormat → Option ℤ) (formats : List OutputFormat) :
    EstimateFileSizeResult :=
  let estimates := estimateEntries originalSize estimate formats
  if estimates.isEmpty then
    { success := false, estimates := [],
      error := some "Could not estimate file sizes" }
  else
    { success := true, estimates := estimates, error := none }

/-- The mutable fields of the MagickFFI class (magickFFI.ts:295-296):
whether this.lib is non-null and the initialized flag. -/
structure MagickState where
  libLoaded : Bool
  initialized : Bool
deriving DecidableEq, Repr

/-- The process-wide native lifecycle calls. -/
inductive NativeCall
  | genesis
  | terminus
deriving DecidableEq, Repr

/-- The state of a freshly constructed MagickFFI instance. -/
def initialState : MagickState := { libLoaded := false, initialized := false }

/-- MagickFFI.init (magickFFI.ts:303-323) on the successful library-load
path: a no-op when already initialized, otherwise dlopen the library and
call MagickWandGenesis.  Returns the new state and the native lifecycle
calls performed. -/
def init (s : MagickState) : MagickState × List NativeCall :=
  if s.initialized then (s, [])
  else ({ libLoaded := true, initialized := true }, [.genesis])

/-- MagickFFI.cleanup (magickFFI.ts:328-334): call MagickWandTerminus and
clear the initialized flag only when the library is loaded and the
instance is initialized; otherwise do nothing.  The source method has no
throwing statement, which this total function reflects. -/
def cleanup (s : MagickState) : MagickState × List NativeCall :=
  if s.libLoaded && s.initialized then
    ({ s with initialized := false }, [.terminus])
  else (s, [])

/-- MagickFFI.isInitialized (magickFFI.ts:339-341). -/
def isInitialized (s : MagickState) : Bool :=
  s.initialized

/-- The value an estimation promise is resolved with: the success flag and
error field of the EstimateFileSizeResult handed to resolve. -/
structure EstimateResolution where
  success : Bool
  error : Option String
deriving DecidableEq, Repr

/-- The resolution delivered by cancelEstimation (imageProcessor.ts:102):
resolve with success false and the error text Cancelled, instead of
rejecting. -/
def cancelledResolution : EstimateResolution :=
  { success := false, error := some "Cancelled" }

/-- An observable settlement of a pending estimation promise. -/
inductive PromiseEvent
  | resolveEvent (id : Nat) (r : EstimateResolution)
  | rejectEvent (id : Nat)
deriving DecidableEq, Repr

/-- The dispatcher bookkeeping of imageProcessor.ts:34-104: the requestId
counter, the key set of the pendingRequests map, and (as ghost
instrumentation for the proofs) the identifiers that have already received
a terminal resolution. -/
structure DispatcherState where
  requestId : Nat
  pending : List Nat
  resolvedIds : List Nat
deriving DecidableEq, Repr

/-- The dispatcher state at module load. -/
def dispatcherInit : DispatcherState :=
  { requestId := 0, pending := [], resolvedIds := [] }

/-- The three operations on the dispatcher state: estimateFileSizeAsync
submitting a request, cancelEstimation, and the worker onmessage handler
delivering a response for an identifier. -/
inductive DispatcherAction
  | submit
  | cancelAction (id : Nat)
  | workerMessage (id : Nat) (r : EstimateResolution)

/-- One dispatcher step, returning the new state and the promise
settlements it performs.
submit (imageProcessor.ts:67-92): increment requestId and store a pending
record under the new identifier.
cancelAction (imageProcessor.ts:97-104): when the identifier is still
pending, delete it and resolve with the cancelled outcome; otherwise do
nothing.
workerMessage (imageProcessor.ts:44-55): when the identifier is still
pending, delete it and resolve with the worker reply; otherwise discard
the message silently. -/
def dstep (s : DispatcherState) : DispatcherAction →
    DispatcherState × List PromiseEvent
  | .submit =>
      let id := s.requestId + 1
      ({ requestId := id, pending := id :: s.pending,
         resolvedIds := s.resolvedIds }, [])
  | .cancelAction id =>
      if id ∈ s.pending then
        ({ s with pending := s.pending.erase id,
                  resolvedIds := id :: s.resolvedIds },
         [.resolveEvent id cancelledResolution])
      else (s, [])
  | .workerMessage id r =>
      if id ∈ s.pending then
        ({ s with pending := s.pending.erase id,
                  resolvedIds := id :: s.resolvedIds },
         [.resolveEvent id r])
      else (s, [])

/-- Run a sequence of dispatcher actions, collecting all settlements. -/
def drun : DispatcherState → List DispatcherAction →
    DispatcherState × List PromiseEvent
  | s, [] => (s, [])
  | s, a :: rest =>
    let r1 := dstep s a
    let r2 := drun r1.1 rest
    (r2.1, r1.2 ++ r2.2)

/-- Whether a promise event is a terminal resolution for identifier i. -/
def isResolutionFor (i : Nat) : PromiseEvent → Bool
  | .resolveEvent j _ => j == i
  | .rejectEvent _ => false

/-- Number of terminal resolutions delivered for identifier i. -/
def resolutionCount (i : Nat) (es : List PromiseEvent) : Nat :=
  (es.filter (isResolutionFor i)).length

/-- Dispatcher invariant: pending keys are distinct (they are Map keys),
no pending key has been resolved, and every known identifier is at most
the current counter value. -/
def DispatcherInv (s : DispatcherState) : Prop :=
  s.pending.Nodup ∧
  (∀ i ∈ s.pending, i ∉ s.resolvedIds) ∧
  (∀ i ∈ s.pending, i ≤ s.requestId) ∧
  (∀ i ∈ s.resolvedIds, i ≤ s.requestId)

/-- Outcomes of the native MagickWand calls made during one per-operation
FFI method invocation. -/
structure WandOracle where
  newWandOk : Bool
  readOk : Bool
  orientOk : Bool
  stripOk : Bool
  qualityOk : Bool
  currentWidth : Nat
  currentHeight : Nat
  orientation : Nat
  resizeOk : Bool
  formatOk : Bool
  writeOk : Bool
  blobOk : Bool
  blobLength : Nat
  exceptionMsg : Option String
deriving DecidableEq, Repr

/-- Wand accounting of one method call: how many wands NewMagickWand
created and DestroyMagickWand destroyed during the call. -/
structure WandLedger where
  created : Nat
  destroyed : Nat
deriving DecidableEq, Repr

/-- The try-block body of MagickFFI.convertImage (magickFFI.ts:452-560):
read aborts on failure; auto-orient, strip and quality failures are
warnings only; the resize step follows resizeDecision and aborts when the
invoked MagickResizeImage fails; format set and write abort on failure. -/
def convertImageBody (o : WandOracle) (format : OutputFormat)
    (resizeWidth resizeHeight : Option Nat) (outputPath : String) :
    ConvResult :=
  if o.readOk = false then
    .err (o.exceptionMsg.getD "Failed to read input image")
  else
    let resizeFailed :=
      match resizeDecision o.currentWidth o.currentHeight
          resizeWidth resizeHeight with
      | some _ => !o.resizeOk
      | none => false
    if resizeFailed then
      .err (o.exceptionMsg.getD "Failed to resize image")
    else if o.formatOk = false then
      .err (o.exceptionMsg.getD
        ("Failed to set format to " ++ format.lowerName))
    else if o.writeOk = false then
      .err (o.exceptionMsg.getD "Failed to write output image")
    else
      .ok outputPath

/-- MagickFFI.convertImage (magickFFI.ts:434-564) with wand accounting.
Before any wand exists the method can throw (lib null, or NewMagickWand
returning null inside createWand).  Once the wand is created the body runs
inside try with a finally that destroys the wand, so every body exit path
-- early failure return or success -- is followed by exactly one
DestroyMagickWand. -/
def convertImageRun (libLoaded : Bool) (o : WandOracle)
    (format : OutputFormat) (resizeWidth resizeHeight : Option Nat)
    (outputPath : String) : Except String ConvResult × WandLedger :=
  if libLoaded = false then
    (.error "MagickFFI not initialized", { created := 0, destroyed := 0 })
  else if o.newWandOk = false then
    (.error "Failed to create MagickWand", { created := 0, destroyed := 0 })
  else
    (.ok (convertImageBody o format resizeWidth resizeHeight outputPath),
     { created := 1, destroyed := 1 })

/-- Result of MagickFFI.estimateFileSize. -/
inductive EstResult
  | ok (size : Nat)
  | err (message : String)
deriving DecidableEq, Repr

/-- The try-block body of MagickFFI.estimateFileSize
(magickFFI.ts:586-667): read aborts on failure; auto-orient, strip,
quality and the invoked resize have their results ignored; format set and
blob extraction abort on failure; on success the blob length is the
estimate. -/
def estimateFileSizeBody (o : WandOracle) (format : OutputFormat)
    (resizeWidth resizeHeight : Option Nat) : EstResult :=
  if o.readOk = false then
    .err (o.exceptionMsg.getD "Failed to read input image")
  else
    let _ := resizeDecision o.currentWidth o.currentHeight
      resizeWidth resizeHeight
    if o.formatOk = false then
      .err (o.exceptionMsg.getD
        ("Failed to set format to " ++ format.lowerName))
    else if o.blobOk = false then
      .err (o.exceptionMsg.getD "Failed to get image blob")
    else
      .ok o.blobLength

/-- MagickFFI.estimateFileSize (magickFFI.ts:570-668) with wand
accounting; same try-finally shape as convertImageRun. -/
def estimateFileSizeRun (libLoaded : Bool) (o : WandOracle)
    (format : OutputFormat) (resizeWidth resizeHeight : Option Nat) :
    Except String EstResult × WandLedger :=
  if libLoaded = false then
    (.error "MagickFFI not initialized", { created := 0, destroyed := 0 })
  else if o.newWandOk = false then
    (.error "Failed to create MagickWand", { created := 0, destroyed := 0 })
  else
    (.ok (estimateFileSizeBody o format resizeWidth resizeHeight),
     { created := 1, destroyed := 1 })

/-- MagickFFI.getImageDimensions (magickFFI.ts:393-429) with wand
accounting: a read failure returns null from inside the try, success
returns the orientation-corrected dimensions; the finally destroys the
wand either way. -/
def getImageDimensionsRun (libLoaded : Bool) (o : WandOracle) :
    Except String (Option ImageDimensions) × WandLedger :=
  if libLoaded = false then
    (.error "MagickFFI not initialized", { created := 0, destroyed := 0 })
  else if o.newWandOk = false then
    (.error "Failed to create MagickWand", { created := 0, destroyed := 0 })
  else
    (.ok (if o.readOk = false then none
          else some (getImageDimensionsFFI o.currentWidth o.currentHeight
                       o.orientation)),
     { created := 1, destroyed := 1 })

/-! ## Theorems -/

/-- C2: for raw stored dimensions (w, h) and EXIF orientation code o
(defaulting to 1 when absent), the geometry resolver returns (w, h) for
o in 1..4 and the swapped pair (h, w) for o in 5..8, identically on the
native FFI path and the subprocess path. -/
theorem C2_orientation_swap (w h o : Nat) :
    (1 ≤ o ∧ o ≤ 4 →
      getImageDimensionsFFI w h o = { width := w, height := h } ∧
      getImageDimensionsShell w h (some o) = { width := w, height := h }) ∧
    (5 ≤ o ∧ o ≤ 8 →
      getImageDimensionsFFI w h o = { width := h, height := w } ∧
      getImageDimensionsShell w h (some o) = { width := h, height := w }) ∧
    getImageDimensionsShell w h none = getImageDimensionsFFI w h 1 ∧
    getImageDimensionsShell w h (some o) = getImageDimensionsFFI w h o := by
  refine ⟨?_, ?_, rfl, rfl⟩
  · rintro ⟨h1, h4⟩
    have hs : shouldSwapDimensions o = false := by
      simp only [shouldSwapDimensions, Bool.and_eq_false_iff,
        decide_eq_false_iff_not]
      omega
    simp [getImageDimensionsFFI, getImageDimensionsShell, hs]
  · rintro ⟨h5, h8⟩
    have hs : shouldSwapDimensions o = true := by
      simp only [shouldSwapDimensions, Bool.and_eq_true, decide_eq_true_eq]
      omega
    simp [getImageDimensionsFFI, getImageDimensionsShell, hs]

/-- Witness for C2 at a concrete rotated image: 300x200 stored with
orientation 6 resolves to 200x300 on both paths. -/
theorem C2_orientation_swap_witness :
    getImageDimensionsFFI 300 200 6 = { width := 200, height := 300 } ∧
    getImageDimensionsShell 300 200 (some 6) =
      { width := 200, height := 300 } :=
  (C2_orientation_swap 300 200 6).2.1 (by decide)

/-- C8: init is idempotent (a second call is a silent no-op performing no
native call), init twice then cleanup once leaves the runtime
uninitialized, and cleanup on a never-initialized instance is a total
no-op that leaves the state unchanged. -/
theorem C8_lifecycle_idempotent (s : MagickState) :
    isInitialized (cleanup (init (init initialState).1).1).1 = false ∧
    init (init s).1 = ((init s).1, []) ∧
    cleanup initialState = (initialState, []) ∧
    isInitialized initialState = false := by
  refine ⟨rfl, ?_, rfl, rfl⟩
  by_cases hs : s.initialized
  · simp [init, hs]
  · simp [init, hs]

/-- C6 counterexample: with the FFI attempted and failing with text
native failure and the shell fallback failing with text shell failure,
convertToFormat returns only the fallback error text, not a concatenation
of the native and fallback error texts. -/
theorem C6_counterexample :
    convertToFormat
      { useFFI := true, ffiAvailable := true,
        ffiOutcome := .result (.err "native failure"),
        shellResult := .err "shell failure" } =
      ConvResult.err "shell failure" ∧
    "shell failure" ≠ "native failure" ++ "shell failure" ∧
    "shell failure" ≠ "native failure" ++ "\n" ++ "shell failure" ∧
    "shell failure" ≠ "native failure" ++ ": " ++ "shell failure" := by
  refine ⟨rfl, ?_, ?_, ?_⟩ <;> decide

/-- C6 amended: when the native path was attempted and failed (result
failure or thrown exception) and the shell fallback also fails, the
returned failure is exactly the fallback result; its error text is the
fallback error text alone and the native error text is only logged. -/
theorem C6_error_is_fallback_only (a b : String) :
    convertToFormat
      { useFFI := true, ffiAvailable := true,
        ffiOutcome := .result (.err a), shellResult := .err b } =
      ConvResult.err b ∧
    convertToFormat
      { useFFI := true, ffiAvailable := true,
        ffiOutcome := .exn a, shellResult := .err b } =
      ConvResult.err b :=
  ⟨rfl, rfl⟩

/-- validateResize fails with one of the two upscale messages whenever a
requested axis exceeds the corresponding displayed dimension. -/
theorem validateResize_upscale (d : ImageDimensions) (rw rh : Option Nat)
    (hup : (∃ w, rw = some w ∧ d.width < w) ∨
           (∃ hv, rh = some hv ∧ d.height < hv)) :
    ∃ msg, validateResize (some d) rw rh =
        { valid := false, error := some msg } ∧
      ((∃ a b, msg = upscaleWidthError a b) ∨
       (∃ a b, msg = upscaleHeightError a b)) := by
  rcases rw with _ | w0
  · rcases hup with ⟨w, hw, _⟩ | ⟨hv, hh, hlt⟩
    · cases hw
    · subst hh
      refine ⟨upscaleHeightError d.height hv, ?_, Or.inr ⟨_, _, rfl⟩⟩
      simp [validateResize, validateHeightCheck, hlt]
  · by_cases hwlt : d.width < w0
    · refine ⟨upscaleWidthError d.width w0, ?_, Or.inl ⟨_, _, rfl⟩⟩
      rcases rh with _ | h0 <;> simp [validateResize, hwlt]
    · rcases hup with ⟨w, hw, hlt⟩ | ⟨hv, hh, hlt⟩
      · injection hw with hw
        subst hw
        exact absurd hlt hwlt
      · subst hh
        refine ⟨upscaleHeightError d.height hv, ?_, Or.inr ⟨_, _, rfl⟩⟩
        simp [validateResize, validateHeightCheck, hwlt, hlt]

/-- validateResize succeeds when every explicitly given axis is at most
the corresponding displayed dimension. -/
theorem validateResize_ok (d : ImageDimensions) (rw rh : Option Nat)
    (hw : ∀ w, rw = some w → w ≤ d.width)
    (hh : ∀ hv, rh = some hv → hv ≤ d.height) :
    (validateResize (some d) rw rh).valid = true := by
  rcases rw with _ | w0 <;> rcases rh with _ | h0
  · rfl
  · have h2 := hh h0 rfl
    simp [validateResize, validateHeightCheck, Nat.not_lt.mpr h2]
  · have h1 := hw w0 rfl
    simp [validateResize, validateHeightCheck, Nat.not_lt.mpr h1]
  · have h1 := hw w0 rfl
    have h2 := hh h0 rfl
    simp [validateResize, validateHeightCheck, Nat.not_lt.mpr h1,
      Nat.not_lt.mpr h2]

/-- processImage returns immediately, attempting no conversion, when
validateResize fails. -/
theorem processImage_invalid (dims : Option ImageDimensions)
    (conv : OutputFormat → ConvResult) (formats : List OutputFormat)
    (rw rh : Option Nat) (msg : String)
    (hv : validateResize dims rw rh = { valid := false, error := some msg }) :
    processImage dims conv formats rw rh =
      ({ success := false, outputPaths := [], error := some msg }, []) := by
  simp [processImage, hv]

/-- C1: a request with resizeWidth above the displayed width or
resizeHeight above the displayed height makes processImage fail with an
upscale error with no conversion attempted and no output path produced,
while a request whose explicitly given axes are both at most the original
dimensions passes validation. -/
theorem C1_upscale_validation (d : ImageDimensions)
    (conv : OutputFormat → ConvResult) (formats : List OutputFormat)
    (rw rh : Option Nat) :
    (((∃ w, rw = some w ∧ d.width < w) ∨
      (∃ hv, rh = some hv ∧ d.height < hv)) →
      (processImage (some d) conv formats rw rh).1.success = false ∧
      (processImage (some d) conv formats rw rh).1.outputPaths = [] ∧
      (processImage (some d) conv formats rw rh).2 = [] ∧
      ∃ msg, (processImage (some d) conv formats rw rh).1.error = some msg ∧
        ((∃ a b, msg = upscaleWidthError a b) ∨
         (∃ a b, msg = upscaleHeightError a b))) ∧
    (((∀ w, rw = some w → w ≤ d.width) ∧
      (∀ hv, rh = some hv → hv ≤ d.height)) →
      (validateResize (some d) rw rh).valid = true) := by
  constructor
  · intro hup
    obtain ⟨msg, hvr, hshape⟩ := validateResize_upscale d rw rh hup
    rw [processImage_invalid (some d) conv formats rw rh msg hvr]
    exact ⟨rfl, rfl, rfl, msg, rfl, hshape⟩
  · rintro ⟨hw, hh⟩
    exact validateResize_ok d rw rh hw hh

/-- Witness for C1: a 600x400 source with resizeWidth 1200 fails before
any conversion, and resize 300x200 passes validation. -/
theorem C1_upscale_validation_witness :
    ((processImage (some { width := 600, height := 400 })
        (fun _ => ConvResult.ok "out") [OutputFormat.webp]
        (some 1200) none).1.success = false ∧
     (processImage (some { width := 600, height := 400 })
        (fun _ => ConvResult.ok "out") [OutputFormat.webp]
        (some 1200) none).1.outputPaths = [] ∧
     (processImage (some { width := 600, height := 400 })
        (fun _ => ConvResult.ok "out") [OutputFormat.webp]
        (some 1200) none).2 = [] ∧
     ∃ msg, (processImage (some { width := 600, height := 400 })
        (fun _ => ConvResult.ok "out") [OutputFormat.webp]
        (some 1200) none).1.error = some msg ∧
        ((∃ a b, msg = upscaleWidthError a b) ∨
         (∃ a b, msg = upscaleHeightError a b))) ∧
    (validateResize (some { width := 600, height := 400 })
      (some 300) (some 200)).valid = true := by
  constructor
  · exact (C1_upscale_validation { width := 600, height := 400 }
      (fun _ => ConvResult.ok "out") [OutputFormat.webp] (some 1200) none).1
      (Or.inl ⟨1200, rfl, by decide⟩)
  · exact (C1_upscale_validation { width := 600, height := 400 }
      (fun _ => ConvResult.ok "out") [OutputFormat.webp]
      (some 300) (some 200)).2
      ⟨fun w hw => by cases hw; decide, fun hv hh => by cases hh; decide⟩

/-- The output path pushed by the loop of processImage for a format, when
its conversion succeeded. -/
def okPath (conv : OutputFormat → ConvResult) (f : OutputFormat) :
    Option String :=
  match conv f with
  | .ok p => some p
  | .err _ => none

/-- The error entry pushed by the loop of processImage for a format, when
its conversion failed: the uppercased format name, a colon and the error
text. -/
def errLabel (conv : OutputFormat → ConvResult) (f : OutputFormat) :
    Option String :=
  match conv f with
  | .ok _ => none
  | .err e => some (f.toUpperCase ++ ": " ++ e)

/-- The conversion loop accumulates exactly the successful output paths
and the failure labels, in format order. -/
theorem convertLoop_eq (conv : OutputFormat → ConvResult)
    (fs : List OutputFormat) :
    convertLoop conv fs =
      (fs.filterMap (okPath conv), fs.filterMap (errLabel conv)) := by
  induction fs with
  | nil => rfl
  | cons f rest ih =>
    cases hc : conv f <;>
      simp [convertLoop, ih, okPath, errLabel, hc, List.filterMap_cons]

/-- Shape of processImage when validation passes: the loop runs over all
formats and the result is assembled from the path and label lists. -/
theorem processImage_valid (dims : Option ImageDimensions)
    (conv : OutputFormat → ConvResult) (fs : List OutputFormat)
    (rw rh : Option Nat)
    (hv : (validateResize dims rw rh).valid = true) :
    processImage dims conv fs rw rh =
      (let paths := fs.filterMap (okPath conv)
       let labels := fs.filterMap (errLabel conv)
       if paths = [] then
         ({ success := false, outputPaths := [],
            error := some (if String.intercalate "\n" labels = ""
                           then "No images were converted"
                           else String.intercalate "\n" labels) }, fs)
       else if labels = [] then
         ({ success := true, outputPaths := paths, error := none }, fs)
       else
         ({ success := true, outputPaths := paths,
            error := some ("Some conversions failed:\n" ++
                           String.intercalate "\n" labels) }, fs)) := by
  simp only [processImage, hv, convertLoop_eq]
  simp

/-- A format has an okPath entry exactly when its conversion succeeded. -/
theorem okPath_eq_some (conv : OutputFormat → ConvResult) (f : OutputFormat) :
    (∃ p, okPath conv f = some p) ↔ ∃ p, conv f = ConvResult.ok p := by
  cases hc : conv f <;> simp [okPath, hc]

/-- C3: formats are processed independently; the result succeeds exactly
when at least one format succeeded; partial failure keeps the successful
output paths and reports a non-fatal combined error listing each failed
format label; zero successes yield failure. -/
theorem C3_multi_format (dims : Option ImageDimensions)
    (conv : OutputFormat → ConvResult) (fs : List OutputFormat)
    (rw rh : Option Nat)
    (hv : (validateResize dims rw rh).valid = true) :
    ((processImage dims conv fs rw rh).1.success = true ↔
      ∃ f ∈ fs, ∃ p, conv f = ConvResult.ok p) ∧
    (fs.filterMap (okPath conv) ≠ [] → fs.filterMap (errLabel conv) ≠ [] →
      (processImage dims conv fs rw rh).1 =
        { success := true, outputPaths := fs.filterMap (okPath conv),
          error := some ("Some conversions failed:\n" ++
            String.intercalate "\n" (fs.filterMap (errLabel conv))) }) ∧
    (fs.filterMap (okPath conv) ≠ [] → fs.filterMap (errLabel conv) = [] →
      (processImage dims conv fs rw rh).1 =
        { success := true, outputPaths := fs.filterMap (okPath conv),
          error := none }) ∧
    (fs.filterMap (okPath conv) = [] →
      (processImage dims conv fs rw rh).1.success = false) := by
  rw [processImage_valid dims conv fs rw rh hv]
  by_cases hp : fs.filterMap (okPath conv) = []
  · refine ⟨?_, fun hc => absurd hp hc, fun hc => absurd hp hc, fun _ => ?_⟩
    · simp only [hp, if_pos rfl]
      constructor
      · intro hfalse
        exact absurd hfalse (by simp)
      · rintro ⟨f, hf, p, hok⟩
        have : okPath conv f = some p := by simp [okPath, hok]
        have : okPath conv f = none := by
          have := List.filterMap_eq_nil_iff.mp hp f hf
          exact this
        simp_all
    · simp [hp]
  · by_cases hl : fs.filterMap (errLabel conv) = []
    · refine ⟨?_, fun _ hc => absurd hl hc, fun _ _ => ?_, fun hc => absurd hc hp⟩
      · simp only [if_neg hp, hl, if_pos rfl]
        constructor
        · intro _
          obtain ⟨x, hx⟩ := List.exists_mem_of_ne_nil _ hp
          obtain ⟨f, hf, hfx⟩ := List.mem_filterMap.mp hx
          exact ⟨f, hf, (okPath_eq_some conv f).mp ⟨x, hfx⟩⟩
        · intro _
          simp
      · simp [hp, hl]
    · refine ⟨?_, fun _ _ => ?_, fun _ hc => absurd hc hl, fun hc => absurd hc hp⟩
      · simp only [if_neg hp, if_neg hl]
        constructor
        · intro _
          obtain ⟨x, hx⟩ := List.exists_mem_of_ne_nil _ hp
          obtain ⟨f, hf, hfx⟩ := List.mem_filterMap.mp hx
          exact ⟨f, hf, (okPath_eq_some conv f).mp ⟨x, hfx⟩⟩
        · intro _
          simp
      · simp [hp, hl]

/-- Witness for C3: one succeeding and one failing format produce a
partial success with one output path and a non-fatal error naming the
failed format. -/
theorem C3_multi_format_witness :
    (processImage none
      (fun f => match f with
        | OutputFormat.webp => ConvResult.ok "a.webp"
        | OutputFormat.avif => ConvResult.err "boom")
      [OutputFormat.webp, OutputFormat.avif] none none).1 =
      { success := true, outputPaths := ["a.webp"],
        error := some "Some conversions failed:\nAVIF: boom" } := by
  have h := (C3_multi_format none
    (fun f => match f with
      | OutputFormat.webp => ConvResult.ok "a.webp"
      | OutputFormat.avif => ConvResult.err "boom")
    [OutputFormat.webp, OutputFormat.avif] none none rfl).2.1
    (by decide) (by decide)
  rw [h]
  decide

/-- C5 counterexample: with current dimensions 100x100 and resizeWidth
100 (the constrained axis equal to, hence not strictly smaller than, the
current width) the resize step is performed with target 100x100, not
skipped as the claim states. -/
theorem C5_resize_equal_counterexample :
    resizeDecision 100 100 (some 100) none = some (100, 100) ∧
    ¬ 100 < 100 := by
  refine ⟨?_, by omega⟩
  decide

/-- C5 amended: when only one axis is specified the missing axis is
computed as Math.round of the aspect-preserving value, and the resize is
invoked exactly when both target axes are at most the current dimensions
(a non-strict comparison, so equal dimensions are still resized);
otherwise the step is skipped silently, never an error.  Moreover the
computed axis can never be the blocking one: when the given axis passes,
the computed axis passes too. -/
theorem C5_aspect_and_skip (cw ch w hgt : Nat) (hcw : 0 < cw)
    (hch : 0 < ch) (hw : w ≠ 0) (hh : hgt ≠ 0) :
    (resizeDecision cw ch (some w) none =
      if w ≤ cw ∧ roundHalfUp (ch * w) cw ≤ ch
      then some (w, roundHalfUp (ch * w) cw) else none) ∧
    (resizeDecision cw ch none (some hgt) =
      if roundHalfUp (cw * hgt) ch ≤ cw ∧ hgt ≤ ch
      then some (roundHalfUp (cw * hgt) ch, hgt) else none) ∧
    (w ≤ cw → roundHalfUp (ch * w) cw ≤ ch) ∧
    (hgt ≤ ch → roundHalfUp (cw * hgt) ch ≤ cw) := by
  refine ⟨?_, ?_, ?_, ?_⟩
  · simp [resizeDecision, truthy, hw]
  · simp [resizeDecision, truthy, hh]
  · intro hwle
    have h1 : ch * w ≤ ch * cw := Nat.mul_le_mul_left ch hwle
    have h2 : 2 * (ch * w) + cw < (ch + 1) * (2 * cw) := by nlinarith
    have h3 : (2 * (ch * w) + cw) / (2 * cw) < ch + 1 :=
      (Nat.div_lt_iff_lt_mul (by omega)).2 h2
    exact Nat.lt_succ_iff.1 h3
  · intro hhle
    have h1 : cw * hgt ≤ cw * ch := Nat.mul_le_mul_left cw hhle
    have h2 : 2 * (cw * hgt) + ch < (cw + 1) * (2 * ch) := by nlinarith
    have h3 : (2 * (cw * hgt) + ch) / (2 * ch) < cw + 1 :=
      (Nat.div_lt_iff_lt_mul (by omega)).2 h2
    exact Nat.lt_succ_iff.1 h3

/-- Witness for C5: a 100x80 image with resizeWidth 50 resizes to 50x40,
aspect preserved. -/
theorem C5_aspect_and_skip_witness :
    resizeDecision 100 80 (some 50) none = some (50, 40) := by
  rw [(C5_aspect_and_skip 100 80 50 1 (by decide) (by decide) (by decide)
    (by decide)).1]
  decide

/-- C7 counterexample: for original size 1000 and estimated size 1001 the
estimated size exceeds the original yet the reported percent decrease is
0, not negative, because Math.round carries the tiny negative ratio up to
zero; this refutes that the value is negative exactly when the estimated
size exceeds the original. -/
theorem C7_round_counterexample :
    calculateDecreasePercent 1000 1001 = JSNum.fin 0 ∧
    (1000 : ℤ) < 1001 := by
  refine ⟨?_, by omega⟩
  norm_num [calculateDecreasePercent, jsDivInt, jsMul100, jsRound,
    JSNum.fin.injEq]

/-- C7 amended: for original size o > 0 the reported percent decrease is
exactly round(100 * (o - e) / o); it is negative only if the estimated
size exceeds the original, and precisely when 200 * (e - o) > o. -/
theorem C7_percent_decrease (o e : ℤ) (ho : 0 < o) :
    calculateDecreasePercent o e =
      JSNum.fin ((round ((100 : ℚ) * ((o : ℚ) - (e : ℚ)) / (o : ℚ)) : ℤ) : ℚ) ∧
    (round ((100 : ℚ) * ((o : ℚ) - (e : ℚ)) / (o : ℚ)) < 0 ↔
      o < 200 * (e - o)) ∧
    (round ((100 : ℚ) * ((o : ℚ) - (e : ℚ)) / (o : ℚ)) < 0 → o < e) := by
  have ho0 : ¬ (o = 0) := by omega
  have ho' : (0 : ℚ) < (o : ℚ) := by exact_mod_cast ho
  have hiff : round ((100 : ℚ) * ((o : ℚ) - (e : ℚ)) / (o : ℚ)) < 0 ↔
      o < 200 * (e - o) := by
    rw [round_eq, show ((0 : ℤ)) = ((0 : ℤ)) from rfl]
    constructor
    · intro hlt
      rw [Int.floor_lt] at hlt
      push_cast at hlt
      have h2 : 100 * ((o : ℚ) - e) / o < -(1 / 2) := by linarith
      rw [div_lt_iff₀ ho'] at h2
      have h3 : (o : ℚ) < 200 * ((e : ℚ) - o) := by linarith
      exact_mod_cast h3
    · intro hlt
      have h3 : (o : ℚ) < 200 * ((e : ℚ) - o) := by exact_mod_cast hlt
      rw [Int.floor_lt]
      push_cast
      have h2 : 100 * ((o : ℚ) - e) < -(1 / 2) * o := by linarith
      have h4 := (div_lt_iff₀ ho').2 h2
      linarith
  refine ⟨?_, hiff, fun hneg => by have := hiff.1 hneg; omega⟩
  have harg : ((o - e : ℤ) : ℚ) / (o : ℚ) * 100 + 1 / 2 =
      (100 : ℚ) * ((o : ℚ) - (e : ℚ)) / (o : ℚ) + 1 / 2 := by
    push_cast
    ring
  simp only [calculateDecreasePercent, jsDivInt, if_neg ho0, jsMul100,
    jsRound, round_eq, harg]

/-- Witness for C7: a compression from 100 bytes to 50 bytes reports a 50
percent decrease. -/
theorem C7_percent_decrease_witness :
    calculateDecreasePercent 100 50 = JSNum.fin 50 := by
  rw [(C7_percent_decrease 100 50 (by omega)).1]
  norm_num [JSNum.fin.injEq]

/-- C9: every per-operation FFI method creates at most one wand and
destroys exactly as many wands as it created, on every exit path --
thrown pre-wand exception, early failure return from the body, or
success -- so the number of live wands after a call equals the number
before it and no wand escapes the call. -/
theorem C9_wand_balance (libLoaded : Bool) (o : WandOracle)
    (format : OutputFormat) (rw rh : Option Nat) (outputPath : String) :
    ((convertImageRun libLoaded o format rw rh outputPath).2.created =
       (convertImageRun libLoaded o format rw rh outputPath).2.destroyed ∧
     (convertImageRun libLoaded o format rw rh outputPath).2.created ≤ 1) ∧
    ((estimateFileSizeRun libLoaded o format rw rh).2.created =
       (estimateFileSizeRun libLoaded o format rw rh).2.destroyed ∧
     (estimateFileSizeRun libLoaded o format rw rh).2.created ≤ 1) ∧
    ((getImageDimensionsRun libLoaded o).2.created =
       (getImageDimensionsRun libLoaded o).2.destroyed ∧
     (getImageDimensionsRun libLoaded o).2.created ≤ 1) := by
  cases libLoaded <;> cases hn : o.newWandOk <;>
    simp [convertImageRun, estimateFileSizeRun, getImageDimensionsRun, hn]

/-- Division by a zero original size always yields a non-finite value. -/
theorem calculateDecreasePercent_zero_nonfinite (z : ℤ) :
    (calculateDecreasePercent 0 z).isFinite = false := by
  by_cases hz : z = 0 <;> by_cases hz2 : z < 0 <;>
    simp [calculateDecreasePercent, jsDivInt, hz, hz2, jsMul100, jsRound,
      JSNum.isFinite]

/-- C10: calculateDecreasePercent has no zero guard: with original size 0
it returns NaN for estimated size 0 and negative infinity for any
positive estimated size, and estimateFileSizeForFormats embeds the
non-finite decreasePercent inside a success result. -/
theorem C10_zero_original_no_guard (e : ℤ) (he : 0 < e)
    (estimate : OutputFormat → Option ℤ) (formats : List OutputFormat)
    (f : OutputFormat) (sz : ℤ) (hf : f ∈ formats)
    (hsz : estimate f = some sz) :
    calculateDecreasePercent 0 0 = JSNum.nan ∧
    calculateDecreasePercent 0 e = JSNum.negInf ∧
    (estimateFileSizeForFormats 0 estimate formats).success = true ∧
    ∃ entry ∈ (estimateFileSizeForFormats 0 estimate formats).estimates,
      entry.format = f ∧ entry.estimatedSize = sz ∧
      entry.decreasePercent.isFinite = false := by
  have h1 : ¬ (e = 0) := by omega
  have h2 : ¬ (e < 0) := by omega
  have hmem : (⟨f, sz, 0, calculateDecreasePercent 0 sz⟩ : FileSizeEstimate)
      ∈ estimateEntries 0 estimate formats := by
    refine List.mem_filterMap.mpr ⟨f, hf, ?_⟩
    rw [hsz]
    rfl
  have hfalse : (estimateEntries 0 estimate formats).isEmpty = false := by
    cases hl : estimateEntries 0 estimate formats with
    | nil =>
        rw [hl] at hmem
        cases hmem
    | cons a t => rfl
  refine ⟨rfl, ?_, ?_, ?_⟩
  · simp [calculateDecreasePercent, jsDivInt, h1, h2, jsMul100, jsRound]
  · simp [estimateFileSizeForFormats, hfalse]
  · refine ⟨⟨f, sz, 0, calculateDecreasePercent 0 sz⟩, ?_, rfl, rfl,
      calculateDecreasePercent_zero_nonfinite sz⟩
    simp only [estimateFileSizeForFormats, hfalse]
    simpa using hmem

/-- Witness for C10: estimating webp with original size 0 and an obtained
estimate of 5 bytes yields a success result containing a non-finite
percent value. -/
theorem C10_zero_original_no_guard_witness :
    calculateDecreasePercent 0 0 = JSNum.nan ∧
    calculateDecreasePercent 0 1 = JSNum.negInf ∧
    (estimateFileSizeForFormats 0 (fun _ => some 5)
      [OutputFormat.webp]).success = true ∧
    ∃ entry ∈ (estimateFileSizeForFormats 0 (fun _ => some 5)
        [OutputFormat.webp]).estimates,
      entry.format = OutputFormat.webp ∧ entry.estimatedSize = 5 ∧
      entry.decreasePercent.isFinite = false :=
  C10_zero_original_no_guard 1 (by omega) (fun _ => some 5)
    [OutputFormat.webp] OutputFormat.webp 5 (by decide) rfl

/-- Removing a pending identifier and marking it resolved preserves the
dispatcher invariant. -/
theorem erase_resolve_inv {s : DispatcherState} (hs : DispatcherInv s)
    {id : Nat} (hmem : id ∈ s.pending) :
    DispatcherInv { s with pending := s.pending.erase id,
                           resolvedIds := id :: s.resolvedIds } := by
  obtain ⟨hnd, hdisj, hple, hrle⟩ := hs
  refine ⟨hnd.erase _, ?_, ?_, ?_⟩
  · intro i hi
    have hii := (List.Nodup.mem_erase_iff hnd).mp hi
    intro hctr
    rcases List.mem_cons.mp hctr with h | h
    · exact hii.1 h
    · exact hdisj i hii.2 h
  · intro i hi
    exact hple i (List.mem_of_mem_erase hi)
  · intro i hi
    rcases List.mem_cons.mp hi with rfl | h
    · exact hple _ hmem
    · exact hrle _ h

/-- Every dispatcher step preserves the invariant. -/
theorem dstep_inv {s : DispatcherState} (hs : DispatcherInv s)
    (a : DispatcherAction) : DispatcherInv (dstep s a).1 := by
  obtain ⟨hnd, hdisj, hple, hrle⟩ := hs
  cases a with
  | submit =>
      show DispatcherInv
        ⟨s.requestId + 1, (s.requestId + 1) :: s.pending, s.resolvedIds⟩
      refine ⟨?_, ?_, ?_, ?_⟩
      · exact List.nodup_cons.mpr
          ⟨fun hmem => by have := hple _ hmem; omega, hnd⟩
      · intro i hi
        rcases List.mem_cons.mp hi with rfl | hi'
        · intro hctr
          have := hrle _ hctr
          omega
        · exact hdisj i hi'
      · intro i hi
        rcases List.mem_cons.mp hi with rfl | hi'
        · exact le_refl _
        · exact le_trans (hple _ hi') (Nat.le_succ _)
      · intro i hi
        exact le_trans (hrle _ hi) (Nat.le_succ _)
  | cancelAction id =>
      by_cases hmem : id ∈ s.pending
      · simpa [dstep, hmem] using erase_resolve_inv ⟨hnd, hdisj, hple, hrle⟩ hmem
      · simpa [dstep, hmem] using (⟨hnd, hdisj, hple, hrle⟩ : DispatcherInv s)
  | workerMessage id r =>
      by_cases hmem : id ∈ s.pending
      · simpa [dstep, hmem] using erase_resolve_inv ⟨hnd, hdisj, hple, hrle⟩ hmem
      · simpa [dstep, hmem] using (⟨hnd, hdisj, hple, hrle⟩ : DispatcherInv s)

/-- A step never removes an identifier from the resolved set. -/
theorem dstep_resolved_mono (s : DispatcherState) (a : DispatcherAction)
    {i : Nat} (hi : i ∈ s.resolvedIds) : i ∈ (dstep s a).1.resolvedIds := by
  cases a with
  | submit => exact hi
  | cancelAction id =>
      by_cases h : id ∈ s.pending
      · simp only [dstep, if_pos h]
        exact List.mem_cons_of_mem _ hi
      · simp only [dstep, if_neg h]
        exact hi
  | workerMessage id r =>
      by_cases h : id ∈ s.pending
      · simp only [dstep, if_pos h]
        exact List.mem_cons_of_mem _ hi
      · simp only [dstep, if_neg h]
        exact hi

/-- resolutionCount distributes over appended event lists. -/
theorem resolutionCount_append (i : Nat) (es1 es2 : List PromiseEvent) :
    resolutionCount i (es1 ++ es2) =
      resolutionCount i es1 + resolutionCount i es2 := by
  simp [resolutionCount, List.filter_append]

/-- Once an identifier is in the resolved set, no further trace from that
state ever resolves it again: a settlement requires the identifier to be
pending, and pending and resolved identifiers are disjoint. -/
theorem drun_resolved_zero {s : DispatcherState} (hs : DispatcherInv s)
    {i : Nat} (hi : i ∈ s.resolvedIds) (acts : List DispatcherAction) :
    resolutionCount i (drun s acts).2 = 0 := by
  induction acts generalizing s with
  | nil => rfl
  | cons a rest ih =>
      have hs' := dstep_inv hs a
      have hi' := dstep_resolved_mono s a hi
      have hstep : resolutionCount i (dstep s a).2 = 0 := by
        cases a with
        | submit => rfl
        | cancelAction id =>
            by_cases h : id ∈ s.pending
            · have hne : id ≠ i := fun heq => hs.2.1 id h (heq ▸ hi)
              simp [dstep, h, resolutionCount, isResolutionFor, hne]
            · simp [dstep, h, resolutionCount]
        | workerMessage id r =>
            by_cases h : id ∈ s.pending
            · have hne : id ≠ i := fun heq => hs.2.1 id h (heq ▸ hi)
              simp [dstep, h, resolutionCount, isResolutionFor, hne]
            · simp [dstep, h, resolutionCount]
      simp only [drun, resolutionCount_append, hstep, Nat.zero_add]
      exact ih hs' hi'

/-- From any state satisfying the invariant, a trace delivers at most one
terminal resolution per identifier. -/
theorem drun_count_le_one {s : DispatcherState} (hs : DispatcherInv s)
    (i : Nat) (acts : List DispatcherAction) :
    resolutionCount i (drun s acts).2 ≤ 1 := by
  induction acts generalizing s with
  | nil => exact Nat.zero_le 1
  | cons a rest ih =>
      have hs' := dstep_inv hs a
      rw [show (drun s (a :: rest)).2 =
          (dstep s a).2 ++ (drun (dstep s a).1 rest).2 from rfl,
        resolutionCount_append]
      cases a with
      | submit =>
          simpa [dstep, resolutionCount] using ih hs'
      | cancelAction id =>
          by_cases h : id ∈ s.pending
          · by_cases hii : id = i
            · subst hii
              have hres : id ∈ (dstep s (.cancelAction id)).1.resolvedIds := by
                simp [dstep, h]
              have hzero := drun_resolved_zero hs' hres rest
              have hstep : resolutionCount id
                  (dstep s (.cancelAction id)).2 = 1 := by
                simp [dstep, h, resolutionCount, isResolutionFor]
              rw [hstep, hzero]
            · have hc : resolutionCount i (dstep s (.cancelAction id)).2 = 0 := by
                simp [dstep, h, resolutionCount, isResolutionFor, hii]
              rw [hc, Nat.zero_add]
              exact ih hs'
          · have hc : resolutionCount i (dstep s (.cancelAction id)).2 = 0 := by
              simp [dstep, h, resolutionCount]
            rw [hc, Nat.zero_add]
            exact ih hs'
      | workerMessage id r =>
          by_cases h : id ∈ s.pending
          · by_cases hii : id = i
            · subst hii
              have hres : id ∈ (dstep s (.workerMessage id r)).1.resolvedIds := by
                simp [dstep, h]
              have hzero := drun_resolved_zero hs' hres rest
              have hstep : resolutionCount id
                  (dstep s (.workerMessage id r)).2 = 1 := by
                simp [dstep, h, resolutionCount, isResolutionFor]
              rw [hstep, hzero]
            · have hc : resolutionCount i (dstep s (.workerMessage id r)).2 = 0 := by
                simp [dstep, h, resolutionCount, isResolutionFor, hii]
              rw [hc, Nat.zero_add]
              exact ih hs'
          · have hc : resolutionCount i (dstep s (.workerMessage id r)).2 = 0 := by
              simp [dstep, h, resolutionCount]
            rw [hc, Nat.zero_add]
            exact ih hs'

/-- No dispatcher trace ever rejects a promise: every settlement is a
resolution. -/
theorem drun_no_reject (s : DispatcherState) (acts : List DispatcherAction)
    (j : Nat) : PromiseEvent.rejectEvent j ∉ (drun s acts).2 := by
  induction acts generalizing s with
  | nil => simp [drun]
  | cons a rest ih =>
      intro hmem
      rcases List.mem_append.mp hmem with h | h
      · cases a with
        | submit => simp [dstep] at h
        | cancelAction id =>
            by_cases hp : id ∈ s.pending
            · simp [dstep, hp] at h
            · simp [dstep, hp] at h
        | workerMessage id r =>
            by_cases hp : id ∈ s.pending
            · simp [dstep, hp] at h
            · simp [dstep, hp] at h
      · exact ih _ h

/-- The dispatcher invariant holds at module load. -/
theorem dispatcherInit_inv : DispatcherInv dispatcherInit :=
  ⟨List.nodup_nil, fun i hi => absurd hi (List.not_mem_nil i),
   fun i hi => absurd hi (List.not_mem_nil i),
   fun i hi => absurd hi (List.not_mem_nil i)⟩

/-- C4: cancelling a pending estimation removes its record and resolves
it with the cancelled outcome (success false, error Cancelled), never a
rejection; a worker response for an identifier no longer pending is
silently discarded with no observable settlement; and along any trace
from the initial dispatcher state no promise is ever rejected and each
identifier receives at most one terminal resolution. -/
theorem C4_cancellation_protocol (acts : List DispatcherAction) (i : Nat)
    (s : DispatcherState) (r : EstimateResolution) :
    (∀ j, PromiseEvent.rejectEvent j ∉ (drun dispatcherInit acts).2) ∧
    resolutionCount i (drun dispatcherInit acts).2 ≤ 1 ∧
    (DispatcherInv s → i ∈ s.pending →
      dstep s (.cancelAction i) =
        ({ s with pending := s.pending.erase i,
                  resolvedIds := i :: s.resolvedIds },
         [.resolveEvent i cancelledResolution]) ∧
      i ∉ (dstep s (.cancelAction i)).1.pending) ∧
    (i ∉ s.pending → dstep s (.workerMessage i r) = (s, [])) := by
  refine ⟨fun j => drun_no_reject dispatcherInit acts j,
    drun_count_le_one dispatcherInit_inv i acts, ?_, ?_⟩
  · intro hinv hmem
    refine ⟨by simp [dstep, hmem], ?_⟩
    simp only [dstep, if_pos hmem]
    intro hctr
    exact ((List.Nodup.mem_erase_iff hinv.1).mp hctr).1 rfl
  · intro hnot
    simp [dstep, hnot]

/-- Witness for C4: submit then cancel resolves identifier 1 exactly once
with the cancelled outcome; a worker reply for the now-absent identifier
is discarded. -/
theorem C4_cancellation_protocol_witness :
    resolutionCount 1
      (drun dispatcherInit
        [DispatcherAction.submit, DispatcherAction.cancelAction 1]).2 ≤ 1 ∧
    dstep { requestId := 1, pending := [1], resolvedIds := [] }
        (.cancelAction 1) =
      ({ requestId := 1, pending := [], resolvedIds := [1] },
       [.resolveEvent 1 cancelledResolution]) ∧
    dstep { requestId := 1, pending := [], resolvedIds := [1] }
        (.workerMessage 1 { success := true, error := none }) =
      ({ requestId := 1, pending := [], resolvedIds := [1] }, []) := by
  refine ⟨?_, ?_, ?_⟩
  · exact (C4_cancellation_protocol
      [DispatcherAction.submit, DispatcherAction.cancelAction 1] 1
      dispatcherInit { success := true, error := none }).2.1
  · exact ((C4_cancellation_protocol []
      1 { requestId := 1, pending := [1], resolvedIds := [] }
      { success := true, error := none }).2.2.1
      ⟨by decide, by decide, by decide, by decide⟩ (by decide)).1
  · exact (C4_cancellation_protocol []
      1 { requestId := 1, pending := [], resolvedIds := [1] }
      { success := true, error := none }).2.2.2 (by decide)

end MagickTui
